import Mathlib

/-!
Verification development for the foodtray-annotations ingestion coordinator.

The Lean definitions below are a shallow embedding of the Python modules
`scripts/ingest/storage.py`, `scripts/ingest/processor.py`,
`scripts/ingest/database.py` and `scripts/ingest/transaction.py`:

* pure helpers (string tests, sorting, the adaptive rate limiter's state
  updates) are translated directly;
* stateful code is translated into explicit state passing: the blob store is
  a `StorageState` (set of object paths plus the manager's two bookkeeping
  lists), the database is a `DbState` (pending rows of the open transaction
  and committed rows), the connection pool is a `PoolState`;
* code that can raise returns `Except Unit _` (or `Option _`); exception
  handlers of the source become `match` on that result;
* remote-call outcomes (upload success / "duplicate" response / permanent
  failure after the retry loop, move success, transform success) are
  supplied by environment functions, mirroring the fact that they are
  decided by the remote service;
* floats (the limiter delays and factors) are modelled as rationals; the
  factors appearing in the code (2.0, 0.5, 5.0) are exact in both models;
* thread pools are modelled by their sequential semantics: the parallel
  record processing and the parallel batch upload only differ from the
  sequential path in completion order, which no downstream consumer
  depends on; the limiter's lock is the sequential atomicity of its
  update functions.

Python string comparison (used by `sorted(...)`) is code-point
lexicographic, embedded here as an executable comparison on `List Char`.
-/

namespace FoodtrayIngest

/-! ### String helpers (executable stand-ins for Python's str operations) -/

/-- Code-point lexicographic comparison of character lists, the order
Python uses to compare strings (and hence to `sorted()` path names). -/
def lexLe : List Char → List Char → Bool
  | [], _ => true
  | _ :: _, [] => false
  | a :: as, b :: bs =>
    if a.toNat < b.toNat then true
    else if b.toNat < a.toNat then false
    else lexLe as bs

/-- Lexicographic `<=` on strings (Python `str` comparison). -/
def strLeB (a b : String) : Bool := lexLe a.data b.data

/-- Boolean prefix test on character lists. -/
def isPrefixCharList : List Char → List Char → Bool
  | [], _ => true
  | _ :: _, [] => false
  | a :: as, b :: bs => a = b && isPrefixCharList as bs

/-- Python `str.startswith`. -/
def strStartsWithB (s pre : String) : Bool := isPrefixCharList pre.data s.data

/-- Boolean contiguous-substring (infix) test on character lists. -/
def isInfixCharList (pat : List Char) : List Char → Bool
  | [] => isPrefixCharList pat []
  | c :: cs => isPrefixCharList pat (c :: cs) || isInfixCharList pat cs

/-- Python `pat in s` on strings. -/
def strContainsB (s pat : String) : Bool := isInfixCharList pat.data s.data

/-- Python `str.lower()` (ASCII is all the source compares). -/
def lowerStr (s : String) : String := ⟨s.data.map Char.toLower⟩

/-- Python `int(s)` for the digit-only names this pipeline produces;
`none` models the `ValueError` raised on anything else. -/
def parseNatStr (s : String) : Option Nat :=
  if !s.data.isEmpty && s.data.all Char.isDigit then
    some (s.data.foldl (fun acc c => acc * 10 + (c.toNat - '0'.toNat)) 0)
  else none

/-- Python `str.isdigit()`: non-empty and every character a digit. -/
def isDigitStr (s : String) : Bool := !s.data.isEmpty && s.data.all Char.isDigit

/-! ### Sorting (Python `sorted`, ascending, by a string key) -/

/-- Insert into a list sorted by the boolean comparison `le`. -/
def insertByKey (le : α → α → Bool) (x : α) : List α → List α
  | [] => [x]
  | y :: ys => if le x y then x :: y :: ys else y :: insertByKey le x ys

/-- Insertion sort by the boolean comparison `le`; embeds Python
`sorted(...)` (any correct ascending sort has the same result up to
stability, and `le` below is total). -/
def sortByKey (le : α → α → Bool) : List α → List α
  | [] => []
  | x :: xs => insertByKey le x (sortByKey le xs)

/-- Sort a list ascending by a string-valued key, as `sorted()` does with
path names. -/
def sortOnKey (key : α → String) (l : List α) : List α :=
  sortByKey (fun a b => strLeB (key a) (key b)) l

end FoodtrayIngest

namespace FoodtrayIngest

/-! ### Adaptive rate limiter (`storage.py`, class `AdaptiveRateLimiter`) -/

/-- State of `AdaptiveRateLimiter` (`storage.py:59-168`). Delays are
rationals standing for the Python floats; every arithmetic operation the
class performs (`*2`, `*0.5`, `min`, `max`) is exact in both models. -/
structure AdaptiveRateLimiter where
  current_delay : ℚ
  initial_delay : ℚ
  max_delay : ℚ
  increase_factor : ℚ
  decrease_factor : ℚ
  success_threshold : ℕ
  success_count : ℕ
  error_count : ℕ
deriving Repr

/-- Constructor `AdaptiveRateLimiter.__init__` (`storage.py:65-94`). -/
def mkLimiter (initial_delay max_delay increase_factor decrease_factor : ℚ)
    (success_threshold : ℕ) : AdaptiveRateLimiter :=
  { current_delay := initial_delay
    initial_delay := initial_delay
    max_delay := max_delay
    increase_factor := increase_factor
    decrease_factor := decrease_factor
    success_threshold := success_threshold
    success_count := 0
    error_count := 0 }

/-- Method `record_success` (`storage.py:103-124`): count the success and,
once the counter reaches the threshold while the delay is positive, shrink
the delay (floored at `initial_delay`) and reset the counter. -/
def AdaptiveRateLimiter.record_success (rl : AdaptiveRateLimiter) : AdaptiveRateLimiter :=
  let sc := rl.success_count + 1
  if rl.success_threshold ≤ sc ∧ 0 < rl.current_delay then
    { rl with
      current_delay := max rl.initial_delay (rl.current_delay * rl.decrease_factor)
      success_count := 0 }
  else
    { rl with success_count := sc }

/-- Rate-limit classification of an error message (`storage.py:133-138`):
lowercase the text and look for "429", "rate limit" or "too many requests". -/
def isRateLimitMsg (msg : String) : Bool :=
  let s := lowerStr msg
  strContainsB s "429" || strContainsB s "rate limit" || strContainsB s "too many requests"

/-- Method `record_error` (`storage.py:126-152`): count the error and reset
the success counter; on a rate-limit-shaped error grow the delay by
`increase_factor` with a `0.5` floor, capped at `max_delay`. -/
def AdaptiveRateLimiter.record_error (rl : AdaptiveRateLimiter) (msg : String) :
    AdaptiveRateLimiter :=
  let rl' := { rl with error_count := rl.error_count + 1, success_count := 0 }
  if isRateLimitMsg msg then
    { rl' with
      current_delay := min rl'.max_delay (max (1/2 : ℚ) (rl'.current_delay * rl'.increase_factor)) }
  else rl'

/-- Method `reset` (`storage.py:154-159`). -/
def AdaptiveRateLimiter.resetState (rl : AdaptiveRateLimiter) : AdaptiveRateLimiter :=
  { rl with
    current_delay := rl.initial_delay
    success_count := 0
    error_count := 0 }

/-- One externally triggered limiter event. -/
inductive LimiterOp
  | success
  | error (msg : String)
  | reset
deriving Repr

/-- Apply one limiter event. -/
def applyOp (rl : AdaptiveRateLimiter) : LimiterOp → AdaptiveRateLimiter
  | .success => rl.record_success
  | .error msg => rl.record_error msg
  | .reset => rl.resetState

/-- Run a sequence of limiter events. -/
def runOps (rl : AdaptiveRateLimiter) (ops : List LimiterOp) : AdaptiveRateLimiter :=
  ops.foldl applyOp rl

end FoodtrayIngest

namespace FoodtrayIngest

/-! ### Dataset scanner (`processor.py`, class `DatasetScanner`) -/

/-- One sub-directory of the dataset root, with the names of its own
sub-directories (the two filesystem levels `scan_recognitions` reads). -/
structure SubDir where
  name : String
  childDirNames : List String
deriving Repr, DecidableEq

/-- The dataset root: its immediate sub-directories. Plain files are not
represented because `scan_recognitions` filters on `is_dir()`. -/
structure DatasetRoot where
  subdirs : List SubDir
deriving Repr, DecidableEq

/-- Python `recognition_dirs[:limit]` guarded by `if limit:` — `None` and
`0` are both falsy, so only a non-zero limit truncates. -/
def applyLimit (limit : Option Nat) (l : List α) : List α :=
  match limit with
  | some n => if n = 0 then l else l.take n
  | none => l

/-- The `export_*` sub-directories of the root, name-sorted ascending
(`processor.py:55-58`). -/
def exportDirsOf (root : DatasetRoot) : List SubDir :=
  sortOnKey SubDir.name (root.subdirs.filter (fun d => strStartsWithB d.name "export_"))

/-- Method `DatasetScanner.scan_recognitions` (`processor.py:35-77`).
When `export_*` directories exist, the record directories are the
`recognition_*` children of `export_dirs[0]` — the first element of the
ascending name sort; otherwise the root's own digit-named or
`recognition_*` directories are used. The body contains no `raise`, so the
result is always `.ok`; the `Except` type records that callers treat
scanning as fallible. -/
def scan_recognitions (root : DatasetRoot) (limit : Option Nat) :
    Except String (List String) :=
  let recognition_dirs :=
    match exportDirsOf root with
    | e :: _ =>
      sortOnKey id (e.childDirNames.filter (fun n => strStartsWithB n "recognition_"))
    | [] =>
      sortOnKey id ((root.subdirs.map SubDir.name).filter
        (fun n => isDigitStr n || strStartsWithB n "recognition_"))
  .ok (applyLimit limit recognition_dirs)

/-- Method `DatasetScanner.find_dataset` (`processor.py:25-33`): return the
first configured search path that exists, else raise `FileNotFoundError`.
A path is modelled as its name plus an existence flag. -/
def find_dataset (search_paths : List (String × Bool)) : Except String String :=
  match search_paths.find? (fun p => p.2) with
  | some p => .ok p.1
  | none => .error "FileNotFoundError"

/-- Modelled from the spec: "locate the single most-recent export
sub-directory (name-sorted)". For ascending name sorting the most recent
is the last element; this definition follows the spec's words (it is not
in the source) and exists only to be compared with `scan_recognitions`. -/
def specScanMostRecent (root : DatasetRoot) (limit : Option Nat) :
    Except String (List String) :=
  match (exportDirsOf root).getLast? with
  | some e =>
    .ok (applyLimit limit
      (sortOnKey id (e.childDirNames.filter (fun n => strStartsWithB n "recognition_"))))
  | none => .error "NotFoundError"

end FoodtrayIngest

namespace FoodtrayIngest

/-! ### Record processor (`processor.py`, class `RecognitionProcessor`) -/

/-- One `*.jpg`/`*.jpeg` file of a record directory. `decodeOk` is whether
`PIL.Image.open`/`convert`/`save` succeeds on it; `width`, `height` and
`reencoded` are the decoded dimensions and the re-encoded JPEG bytes
(bytes are an abstract payload, carried as a string). -/
structure ImageFile where
  name : String
  width : Nat
  height : Nat
  decodeOk : Bool
  reencoded : String
deriving Repr, DecidableEq

/-- One record directory as `process_recognition` reads it.
`amPayloads` / `cdPayloads` are the JSON documents of the files matched by
the active-menu globs (`*_AM.json`, `AM.json`) and the recipe globs
(`*_correct_dishes.json`, `CD.json`), in glob order; `none` in a slot
models a file whose `json.load` raises. `photosImages` is `some files`
when a `photos/` sub-directory exists (its jpg files), else the jpgs sit
directly in the record directory (`rootImages`). -/
structure RecordDir where
  name : String
  amPayloads : List (Option String)
  cdPayloads : List (Option String)
  photosImages : Option (List ImageFile)
  rootImages : List ImageFile
deriving Repr, DecidableEq

/-- Dataclass `RecognitionData` (`transaction.py:15-29`). Image bytes are
abstract payload strings; the two metadata documents stay as the opaque
payloads the source merely forwards. -/
structure RecognitionData where
  recognition_id : Int
  batch_id : String
  active_menu : Option String
  image1_path : String
  image2_path : String
  image1_width : Nat
  image1_height : Nat
  image2_width : Nat
  image2_height : Nat
  image1_data : String
  image2_data : String
  recipe_payload : Option String := none
deriving Repr, DecidableEq

/-- Method `_extract_recognition_id` (`processor.py:151-156`): strip a
`recognition_` marker and parse the rest as an integer; `none` is the
`ValueError` of `int()` on a non-numeric remainder. -/
def extract_recognition_id (dirName : String) : Option Int :=
  if strStartsWithB dirName "recognition_" then
    (parseNatStr (String.mk (dirName.data.drop 12))).map Int.ofNat
  else
    (parseNatStr dirName).map Int.ofNat

/-- Shared shape of `_load_active_menu` / `_load_recipe`
(`processor.py:158-183`): no matching file is tolerated (`.ok none`); a
matching file whose `json.load` raises propagates the exception
(`.error`), which the caller's `try` turns into a skip. -/
def loadJsonHead (payloads : List (Option String)) : Except Unit (Option String) :=
  match payloads.head? with
  | none => .ok none
  | some none => .error ()
  | some (some p) => .ok (some p)

/-- Method `_load_active_menu` (`processor.py:158-170`). -/
def load_active_menu (d : RecordDir) : Except Unit (Option String) :=
  loadJsonHead d.amPayloads

/-- Method `_load_recipe` (`processor.py:172-183`). -/
def load_recipe (d : RecordDir) : Except Unit (Option String) :=
  loadJsonHead d.cdPayloads

/-- The jpg files `_process_images` considers: the `photos/` sub-directory
when it exists, else the record directory itself (`processor.py:196-201`). -/
def imageCandidates (d : RecordDir) : List ImageFile :=
  match d.photosImages with
  | some files => files
  | none => d.rootImages

/-- One processed image: stored filename `camera{idx}.jpg`, dimensions and
re-encoded bytes (`processor.py:215-231`). -/
structure ProcessedImage where
  filename : String
  width : Nat
  height : Nat
  data : String
deriving Repr, DecidableEq

/-- The per-image loop of `_process_images` (`processor.py:214-242`):
images are numbered from `idx`; the first decode failure aborts with
`none`. -/
def processImagesGo : Nat → List ImageFile → Option (List ProcessedImage)
  | _, [] => some []
  | idx, f :: fs =>
    if f.decodeOk then
      match processImagesGo (idx + 1) fs with
      | some rest =>
        some ({ filename := "camera" ++ toString idx ++ ".jpg"
                width := f.width
                height := f.height
                data := f.reencoded } :: rest)
      | none => none
    else none

/-- Method `_process_images` (`processor.py:185-244`): exactly two
qualifying image files are required, they are name-sorted, processed in
order, and the result is re-checked to have length two. -/
def process_images (d : RecordDir) : Option (List ProcessedImage) :=
  let image_files := imageCandidates d
  if image_files.length ≠ 2 then none
  else
    match processImagesGo 1 (sortOnKey ImageFile.name image_files) with
    | none => none
    | some results => if results.length = 2 then some results else none

/-- Method `RecognitionProcessor.process_recognition` (`processor.py:88-149`).
Any exception inside the body (id extraction, metadata loading, and the
image step) is caught by the enclosing `try` and turns into `none` (a
skipped record). `json.dumps(active_menu) if active_menu else None` is
modelled as the payload itself. -/
def process_recognition (batch_id : String) (d : RecordDir) : Option RecognitionData :=
  match extract_recognition_id d.name with
  | none => none
  | some recognition_id =>
    match load_active_menu d with
    | .error _ => none
    | .ok active_menu =>
      match load_recipe d with
      | .error _ => none
      | .ok recipe =>
        match process_images d with
        | none => none
        | some [img1, img2] =>
          some { recognition_id := recognition_id
                 batch_id := batch_id
                 active_menu := active_menu
                 image1_path := img1.filename
                 image2_path := img2.filename
                 image1_width := img1.width
                 image1_height := img1.height
                 image2_width := img2.width
                 image2_height := img2.height
                 image1_data := img1.data
                 image2_data := img2.data
                 recipe_payload := recipe }
        | some _ => none

/-- Method `ParallelDataProcessor.process_dataset` over an already-scanned
list of record directories (`processor.py:318-367`): each directory is
processed independently; `none` results (and worker exceptions, already
folded into `none` by `process_recognition`'s handler) are dropped. The
worker pool only changes completion order, which downstream batching does
not depend on, so the fold is the sequential semantics. -/
def process_dataset (batch_id : String) (dirs : List RecordDir) : List RecognitionData :=
  dirs.filterMap (process_recognition batch_id)

/-- A record directory every step of `process_recognition` accepts. -/
def validRecordDir (d : RecordDir) : Bool :=
  (extract_recognition_id d.name).isSome &&
  !(d.amPayloads.head? == some none) &&
  !(d.cdPayloads.head? == some none) &&
  (imageCandidates d).length == 2 &&
  (imageCandidates d).all (fun f => f.decodeOk)

/-- A record directory whose qualifying-image count is not two. -/
def wrongImageCount (d : RecordDir) : Bool :=
  (imageCandidates d).length != 2

end FoodtrayIngest

namespace FoodtrayIngest

/-! ### Blob store client (`storage.py`, class `StorageManager`) -/

/-- Outcome of one upload call at a given path, decided by the remote
service: plain success, a "Duplicate"/"already exists" response, or a
failure that persists through the retry loop (the loop's attempts are
collapsed because the per-path outcome is what staging observes). -/
inductive UploadOutcome
  | ok
  | dup
  | fail
deriving Repr, DecidableEq

/-- The bucket plus the manager's bookkeeping (`storage.py:190-191`):
`objects` is the set of paths holding a blob, `uploadedFiles` is
`_uploaded_files`, `tempFiles` is `_temp_files`. -/
structure StorageState where
  objects : List String
  uploadedFiles : List String
  tempFiles : List String
deriving Repr, DecidableEq

/-- Config default `storage_temp_prefix` (`config.py:39`). -/
def tempPrefixVal : String := "temp"

/-- Upsert a path into the bucket. -/
def upsertPath (p : String) (objs : List String) : List String :=
  if p ∈ objs then objs else objs ++ [p]

/-- Remove a set of paths from the bucket (`remove([...])` / batch
delete). -/
def removePaths (ps : List String) (objs : List String) : List String :=
  objs.filter (fun q => !(decide (q ∈ ps)))

/-- Method `StorageManager.upload_file` (`storage.py:261-351`): prepend the
temp prefix when `use_temp`; on success record the path in `_temp_files`
(temp mode) or `_uploaded_files` (direct mode) and return `True`; a
"Duplicate"/"already exists" error is returned as success after appending
the path — temp-prefixed or not — to `_uploaded_files`; any other error
surviving the retries is re-raised. (Metrics and the rate-limiter hooks
carry no data the staged-file bookkeeping depends on and are modelled
separately by `AdaptiveRateLimiter`.) -/
def upload_file (env : String → UploadOutcome) (use_temp : Bool) (path : String)
    (st : StorageState) : StorageState × Except Unit Unit :=
  let storage_path := if use_temp then tempPrefixVal ++ "/" ++ path else path
  match env storage_path with
  | .ok =>
    let st := { st with objects := upsertPath storage_path st.objects }
    if use_temp then
      ({ st with tempFiles := st.tempFiles ++ [storage_path] }, .ok ())
    else
      ({ st with uploadedFiles := st.uploadedFiles ++ [storage_path] }, .ok ())
  | .dup =>
    ({ st with uploadedFiles := st.uploadedFiles ++ [storage_path] }, .ok ())
  | .fail => (st, .error ())

/-- Methods `_sequential_upload` / `batch_upload` (`storage.py:353-444`):
upload each file, counting successes and failures; a failed upload is
caught and counted, never propagated. The parallel branch differs only in
completion order, so the sequential fold is the observable semantics. -/
def batch_upload (env : String → UploadOutcome) (use_temp : Bool)
    (files : List String) (st : StorageState) : StorageState × Nat × Nat :=
  files.foldl
    (fun acc path =>
      match upload_file env use_temp path acc.1 with
      | (st', .ok _) => (st', acc.2.1 + 1, acc.2.2)
      | (st', .error _) => (st', acc.2.1, acc.2.2 + 1))
    (st, 0, 0)

/-- Python `temp_path.replace(f"{prefix}/", "", 1)` on the temp paths this
pipeline builds (the prefix occurs first): strip the leading `temp/`. -/
def stripTempMarker (p : String) : String :=
  if strStartsWithB p (tempPrefixVal ++ "/") then
    String.mk (p.data.drop (tempPrefixVal ++ "/").length)
  else p

/-- The loop of `commit_temp_files` (`storage.py:548-562`): move each
recorded temp file to its permanent path, appending the permanent path to
`_uploaded_files`; the first failed move re-raises, leaving `_temp_files`
uncleared; the list is cleared only after all moves succeed. `moveOk`
gives the per-path outcome of `move_file` after its retries. -/
def commitTempGo (moveOk : String → Bool) :
    List String → StorageState → StorageState × Except Unit Unit
  | [], st => ({ st with tempFiles := [] }, .ok ())
  | t :: ts, st =>
    if moveOk t then
      let perm := stripTempMarker t
      let st := { st with
        objects := upsertPath perm (removePaths [t] st.objects)
        uploadedFiles := st.uploadedFiles ++ [perm] }
      commitTempGo moveOk ts st
    else (st, .error ())

/-- Method `commit_temp_files` (`storage.py:548-562`). -/
def commit_temp_files (moveOk : String → Bool) (st : StorageState) :
    StorageState × Except Unit Unit :=
  commitTempGo moveOk st.tempFiles st

/-- Method `rollback_temp_files` (`storage.py:564-571`): nothing to do
when no temp file is recorded; otherwise batch-delete the recorded temp
paths and clear the list. `delete_batch` falls back to per-path deletes
and never raises. -/
def rollback_temp_files (st : StorageState) : StorageState :=
  if st.tempFiles.isEmpty then st
  else { st with objects := removePaths st.tempFiles st.objects, tempFiles := [] }

/-- Method `delete_recognition_files` (`storage.py:523-546`): list the
`recognitions/{id}` folder and delete every blob in it. -/
def delete_recognition_files (recognition_id : Int) (st : StorageState) : StorageState :=
  let folder := "recognitions/" ++ toString recognition_id ++ "/"
  { st with objects := st.objects.filter (fun q => !(strStartsWithB q folder)) }

end FoodtrayIngest

namespace FoodtrayIngest

/-! ### Database client (`database.py`, class `DatabaseManager`) -/

/-- The relational store as the coordinator's held connection sees it:
rows inserted inside the open transaction (`pending`) and rows visible to
other readers (`committed`). A row is summarised by its target table and
recognition id — the columns the claims quantify over. -/
structure DbState where
  pending : List (String × Int)
  committed : List (String × Int)
deriving Repr, DecidableEq

/-- Method `bulk_copy` on a caller-supplied connection
(`database.py:75-132`): a COPY into the open, uncommitted transaction. -/
def bulk_copy (table : String) (rows : List Int) (db : DbState) : DbState :=
  { db with pending := db.pending ++ rows.map (fun r => (table, r)) }

/-- `conn.commit()`: pending rows become visible. -/
def dbCommit (db : DbState) : DbState :=
  { pending := [], committed := db.committed ++ db.pending }

/-- `conn.rollback()`: pending rows are discarded. -/
def dbRollback (db : DbState) : DbState :=
  { db with pending := [] }

/-! ### Connection pool (`database.py`, `get_connection`) -/

/-- The pool's counters: idle connections still in the pool and
connections currently checked out. -/
structure PoolState where
  available : Nat
  checkedOut : Nat
deriving Repr, DecidableEq

/-- Outcomes driving one `with get_connection() as conn:` use: whether the
body `fn` returns normally and whether `conn.commit()` succeeds. -/
structure ConnCall where
  fnOk : Bool
  commitOk : Bool
deriving Repr, DecidableEq

/-- Observable result of one `get_connection` use. -/
structure ConnOutcome where
  pool : PoolState
  autocommitOff : Bool
  committed : Bool
  rolledBack : Bool
  raised : Bool
deriving Repr, DecidableEq

/-- Context manager `DatabaseManager.get_connection` (`database.py:42-60`):
check a connection out of the pool (an exhausted pool raises and there is
nothing to return), disable autocommit, run the body; commit on normal
return, roll back on an exception (also on a failed commit); the `finally`
returns the connection to the pool on every one of those paths. -/
def get_connection (c : ConnCall) (p : PoolState) : ConnOutcome :=
  if p.available = 0 then
    { pool := p, autocommitOff := false, committed := false, rolledBack := false, raised := true }
  else
    let held : PoolState := { available := p.available - 1, checkedOut := p.checkedOut + 1 }
    let back : PoolState := { available := held.available + 1, checkedOut := held.checkedOut - 1 }
    if c.fnOk then
      if c.commitOk then
        { pool := back, autocommitOff := true, committed := true, rolledBack := false, raised := false }
      else
        { pool := back, autocommitOff := true, committed := false, rolledBack := true, raised := true }
    else
      { pool := back, autocommitOff := true, committed := false, rolledBack := true, raised := true }

/-- A sequence of `get_connection` uses, successful and failing. -/
def runConnCalls (calls : List ConnCall) (p : PoolState) : PoolState :=
  calls.foldl (fun q c => (get_connection c q).pool) p

end FoodtrayIngest

namespace FoodtrayIngest

/-! ### Transaction coordinator (`transaction.py`, class `TransactionContext`) -/

/-- The coordinator's world: the blob store, the database as seen through
the held connection, and `_staged_recognitions`. -/
structure TxState where
  storage : StorageState
  db : DbState
  staged : List RecognitionData
deriving Repr, DecidableEq

/-- The upload list `_stage_images` builds (`transaction.py:114-123`):
both camera paths of every record, in order. -/
def recognitionUploadPaths : List RecognitionData → List String
  | [] => []
  | r :: rs =>
    ("recognitions/" ++ toString r.recognition_id ++ "/" ++ r.image1_path) ::
    ("recognitions/" ++ toString r.recognition_id ++ "/" ++ r.image2_path) ::
    recognitionUploadPaths rs

/-- Method `_stage_images` (`transaction.py:110-131`): batch-upload both
images of every record; if any upload failed, raise. -/
def stage_images (env : String → UploadOutcome) (use_temp : Bool)
    (recs : List RecognitionData) (st : StorageState) : StorageState × Except Unit Unit :=
  match batch_upload env use_temp (recognitionUploadPaths recs) st with
  | (st', _, failed) => if 0 < failed then (st', .error ()) else (st', .ok ())

/-- Method `_stage_database` (`transaction.py:133-188`): bulk-copy one
`raw.recognition_files` row per record, and one `raw.recipes` row per
record with a (truthy) recipe payload, into the held transaction. -/
def stage_database (recs : List RecognitionData) (db : DbState) : DbState :=
  let recognition_rows := recs.map (fun r => r.recognition_id)
  let db :=
    if recognition_rows.isEmpty then db
    else bulk_copy "raw.recognition_files" recognition_rows db
  let recipe_rows := (recs.filter (fun r => r.recipe_payload.isSome)).map
    (fun r => r.recognition_id)
  if recipe_rows.isEmpty then db
  else bulk_copy "raw.recipes" recipe_rows db

/-- Method `TransactionContext.stage_recognitions` (`transaction.py:87-108`):
upload the images, then stage the rows, then — only after both steps
succeeded — extend `_staged_recognitions` with the batch. An upload
failure propagates before either of the later steps runs. -/
def stage_recognitions (env : String → UploadOutcome) (recs : List RecognitionData)
    (use_temp_storage : Bool) (tx : TxState) : TxState × Except Unit Unit :=
  match stage_images env use_temp_storage recs tx.storage with
  | (st, .error e) => ({ tx with storage := st }, .error e)
  | (st, .ok _) =>
    let db := stage_database recs tx.db
    ({ storage := st, db := db, staged := tx.staged ++ recs }, .ok ())

/-- Method `TransactionContext.rollback` (`transaction.py:243-273`): roll
back the held database transaction; delete the recorded temp files if any
(this clears `_temp_files`); then, reading `_temp_files` again, delete the
permanent blobs of every recognition in `_staged_recognitions` when the
temp list is (now) empty and the staged list is not. -/
def txRollback (tx : TxState) : TxState :=
  let db := dbRollback tx.db
  let st := rollback_temp_files tx.storage
  let st :=
    if st.tempFiles.isEmpty && !tx.staged.isEmpty then
      tx.staged.foldl (fun s r => delete_recognition_files r.recognition_id s) st
    else st
  { storage := st, db := db, staged := tx.staged }

/-- Result of `TransactionContext.commit`: the final world, whether
`rollback()` ran, and the re-raised exception if any. -/
structure CommitOutcome where
  tx : TxState
  rolledBack : Bool
  result : Except Unit Unit
deriving Repr

/-- Method `_run_transforms` (`transaction.py:218-241`): invoke the two
transform functions on the held connection and commit again. The
transforms act on server-side domain tables outside this model; their
combined success is the environment flag, and the trailing commit flushes
any pending rows. -/
def run_transforms (transformOk : Bool) (tx : TxState) : TxState × Except Unit Unit :=
  if transformOk then ({ tx with db := dbCommit tx.db }, .ok ())
  else (tx, .error ())

/-- Method `TransactionContext.commit` (`transaction.py:190-216`): commit
the database transaction, promote the temp-staged blobs when `_temp_files`
is non-empty, run the transforms; any exception in those steps triggers
`rollback()` and is then re-raised. -/
def txCommit (dbCommitOk : Bool) (moveOk : String → Bool) (transformOk : Bool)
    (tx : TxState) : CommitOutcome :=
  if !dbCommitOk then
    { tx := txRollback tx, rolledBack := true, result := .error () }
  else
    let tx1 : TxState := { tx with db := dbCommit tx.db }
    if tx1.storage.tempFiles.isEmpty then
      match run_transforms transformOk tx1 with
      | (tx2, .ok _) => { tx := tx2, rolledBack := false, result := .ok () }
      | (tx2, .error e) => { tx := txRollback tx2, rolledBack := true, result := .error e }
    else
      match commit_temp_files moveOk tx1.storage with
      | (st, .error e) =>
        { tx := txRollback { tx1 with storage := st }, rolledBack := true, result := .error e }
      | (st, .ok _) =>
        let tx2 : TxState := { tx1 with storage := st }
        match run_transforms transformOk tx2 with
        | (tx3, .ok _) => { tx := tx3, rolledBack := false, result := .ok () }
        | (tx3, .error e) => { tx := txRollback tx3, rolledBack := true, result := .error e }

/-- Boolean "this `Except` is an error" (the call raised). -/
def raisedE : Except Unit Unit → Bool
  | .ok _ => false
  | .error _ => true

end FoodtrayIngest

namespace FoodtrayIngest

/-! ### Concrete instances used by counterexamples and witnesses -/

/-- Invariant carried through every limiter event: the configuration
fields hold the constructor arguments (with the factors of the single
construction site, `storage.py:195-201`) and the delay is inside
`[initial_delay, max_delay]`. -/
def limInv (init maxd : ℚ) (rl : AdaptiveRateLimiter) : Prop :=
  rl.initial_delay = init ∧ rl.max_delay = maxd ∧ rl.increase_factor = 2 ∧
  rl.decrease_factor = 1/2 ∧ init ≤ rl.current_delay ∧ rl.current_delay ≤ maxd

/-- A limiter mid-run: positive delay, counter one below the threshold. -/
def rlNearThreshold : AdaptiveRateLimiter :=
  { current_delay := 4
    initial_delay := 0
    max_delay := 5
    increase_factor := 2
    decrease_factor := 1/2
    success_threshold := 10
    success_count := 9
    error_count := 0 }

/-- A decodable 640x480 image file. -/
def imgFile (nm : String) : ImageFile :=
  { name := nm, width := 640, height := 480, decodeOk := true, reencoded := "jpegbytes" }

/-- Record directory with two good images and no metadata files at all. -/
def exDirC4 : RecordDir :=
  { name := "recognition_42"
    amPayloads := []
    cdPayloads := []
    photosImages := none
    rootImages := [imgFile "a.jpg", imgFile "b.jpg"] }

/-- Valid record directory (id 3): active menu present, no recipe. -/
def validDirA : RecordDir :=
  { name := "recognition_3"
    amPayloads := [some "menu-doc"]
    cdPayloads := []
    photosImages := none
    rootImages := [imgFile "a.jpg", imgFile "b.jpg"] }

/-- Valid record directory (id 7): metadata in both slots, photos dir. -/
def validDirB : RecordDir :=
  { name := "7"
    amPayloads := [some "menu-doc-7"]
    cdPayloads := [some "recipe-doc-7"]
    photosImages := some [imgFile "x.jpg", imgFile "y.jpg"]
    rootImages := [] }

/-- Record directory with a single image: a wrong-count skip. -/
def wrongDirC : RecordDir :=
  { name := "recognition_8"
    amPayloads := [some "menu-doc-8"]
    cdPayloads := []
    photosImages := none
    rootImages := [imgFile "only.jpg"] }

/-- Dataset for the partial-record-tolerance scenario: two valid records
and one wrong-count record. -/
def dirsC7 : List RecordDir := [validDirA, validDirB, wrongDirC]

/-- The older of two export directories. -/
def expOld : SubDir := { name := "export_2024_01", childDirNames := ["recognition_2"] }

/-- The newer of two export directories. -/
def expNew : SubDir := { name := "export_2025_06", childDirNames := ["recognition_9"] }

/-- Dataset root with two export directories (an older and a newer one),
holding different record directories. -/
def rootTwoExports : DatasetRoot := { subdirs := [expOld, expNew] }

/-- Dataset root with no export directory but a root-level record
directory. -/
def rootNoExport : DatasetRoot :=
  { subdirs := [ { name := "recognition_7", childDirNames := [] } ] }

/-- Dataset root with no sub-directories at all. -/
def rootEmptyDir : DatasetRoot := { subdirs := [] }

/-- Search-path list in which no path exists. -/
def pathsNone : List (String × Bool) := [("ds/a", false), ("ds/b", false)]

/-- Upload environment for the staging counterexample: the second camera
of recognition 1 fails permanently, everything else succeeds. -/
def envC1 (p : String) : UploadOutcome :=
  if p = "recognitions/1/camera2.jpg" then .fail else .ok

/-- The batch of one recognition used in the staging scenario. -/
def recC1 : RecognitionData :=
  { recognition_id := 1
    batch_id := "batch_1"
    active_menu := none
    image1_path := "camera1.jpg"
    image2_path := "camera2.jpg"
    image1_width := 640
    image1_height := 480
    image2_width := 640
    image2_height := 480
    image1_data := "bytes1"
    image2_data := "bytes2"
    recipe_payload := none }

/-- A fresh transaction world: empty bucket, empty tables, nothing staged. -/
def txEmpty : TxState :=
  { storage := { objects := [], uploadedFiles := [], tempFiles := [] }
    db := { pending := [], committed := [] }
    staged := [] }

/-- Upload environment that always reports "Duplicate". -/
def envDup : String → UploadOutcome := fun _ => .dup

/-- Path used in the duplicate-upload scenario. -/
def pathDup : String := "recognitions/9/camera1.jpg"

/-- Storage already holding a blob at the temp path of `pathDup` (left by
an earlier crashed run), with empty bookkeeping lists. -/
def stDup : StorageState :=
  { objects := ["temp/recognitions/9/camera1.jpg"], uploadedFiles := [], tempFiles := [] }

end FoodtrayIngest

namespace FoodtrayIngest

/-! ### Lemmas about the lexicographic comparison and the sort -/

theorem lexLe_refl (l : List Char) : lexLe l l = true := by
  induction l with
  | nil => rfl
  | cons a as ih => simp [lexLe, ih]

theorem lexLe_total : ∀ a b : List Char, lexLe a b = true ∨ lexLe b a = true := by
  intro a
  induction a with
  | nil => intro b; exact Or.inl rfl
  | cons x xs ih =>
    intro b
    cases b with
    | nil => exact Or.inr rfl
    | cons y ys =>
      by_cases h1 : x.toNat < y.toNat
      · exact Or.inl (by simp [lexLe, h1])
      · by_cases h2 : y.toNat < x.toNat
        · exact Or.inr (by simp [lexLe, h2])
        · rcases ih ys with h | h
          · exact Or.inl (by simp [lexLe, h1, h2, h])
          · exact Or.inr (by simp [lexLe, h1, h2, h])

theorem lexLe_trans (a : List Char) :
    ∀ b c, lexLe a b = true → lexLe b c = true → lexLe a c = true := by
  induction a with
  | nil => intro b c _ _; rfl
  | cons x xs ih =>
    intro b c h1 h2
    cases b with
    | nil => simp [lexLe] at h1
    | cons y ys =>
      cases c with
      | nil => simp [lexLe] at h2
      | cons z zs =>
        simp only [lexLe] at h1 h2 ⊢
        split_ifs at h1 h2 ⊢ <;>
          first
            | rfl
            | omega
            | (exact ih ys zs h1 h2)

theorem strLeB_refl (s : String) : strLeB s s = true := lexLe_refl _

theorem strLeB_total (a b : String) : strLeB a b = true ∨ strLeB b a = true :=
  lexLe_total _ _

theorem strLeB_trans {a b c : String} (h1 : strLeB a b = true) (h2 : strLeB b c = true) :
    strLeB a c = true :=
  lexLe_trans _ _ _ h1 h2

theorem mem_insertByKey (le : α → α → Bool) (x a : α) :
    ∀ l : List α, (a ∈ insertByKey le x l ↔ a = x ∨ a ∈ l) := by
  intro l
  induction l with
  | nil => simp [insertByKey]
  | cons y ys ih =>
    simp only [insertByKey]
    split
    · simp only [List.mem_cons]
    · simp only [List.mem_cons, ih]
      tauto

theorem mem_sortByKey (le : α → α → Bool) (a : α) :
    ∀ l : List α, (a ∈ sortByKey le l ↔ a ∈ l) := by
  intro l
  induction l with
  | nil => simp [sortByKey]
  | cons x xs ih =>
    simp only [sortByKey, mem_insertByKey, List.mem_cons, ih]

theorem length_insertByKey (le : α → α → Bool) (x : α) :
    ∀ l : List α, (insertByKey le x l).length = l.length + 1 := by
  intro l
  induction l with
  | nil => rfl
  | cons y ys ih =>
    simp only [insertByKey]
    split
    · simp
    · simp [ih]

theorem length_sortByKey (le : α → α → Bool) :
    ∀ l : List α, (sortByKey le l).length = l.length := by
  intro l
  induction l with
  | nil => rfl
  | cons x xs ih => simp [sortByKey, length_insertByKey, ih]

theorem pairwise_insertByKey (le : α → α → Bool)
    (htotal : ∀ a b, le a b = true ∨ le b a = true)
    (htrans : ∀ a b c, le a b = true → le b c = true → le a c = true) (x : α) :
    ∀ l : List α, l.Pairwise (fun a b => le a b = true) →
      (insertByKey le x l).Pairwise (fun a b => le a b = true) := by
  intro l
  induction l with
  | nil => intro _; simp [insertByKey]
  | cons y ys ih =>
    intro hp
    obtain ⟨hy, hys⟩ := List.pairwise_cons.mp hp
    simp only [insertByKey]
    split
    · rename_i hxy
      refine List.pairwise_cons.mpr ⟨?_, hp⟩
      intro b hb
      rcases List.mem_cons.mp hb with rfl | hb
      · exact hxy
      · exact htrans x y b hxy (hy b hb)
    · rename_i hxy
      refine List.pairwise_cons.mpr ⟨?_, ih hys⟩
      intro b hb
      rcases (mem_insertByKey le x b ys).mp hb with hbx | hb
      · rw [hbx]
        rcases htotal x y with h | h
        · exact absurd h hxy
        · exact h
      · exact hy b hb

theorem pairwise_sortByKey (le : α → α → Bool)
    (htotal : ∀ a b, le a b = true ∨ le b a = true)
    (htrans : ∀ a b c, le a b = true → le b c = true → le a c = true) :
    ∀ l : List α, (sortByKey le l).Pairwise (fun a b => le a b = true) := by
  intro l
  induction l with
  | nil => simp [sortByKey]
  | cons x xs ih => exact pairwise_insertByKey le htotal htrans x _ ih

theorem mem_sortOnKey (key : α → String) (a : α) (l : List α) :
    a ∈ sortOnKey key l ↔ a ∈ l :=
  mem_sortByKey _ a l

theorem length_sortOnKey (key : α → String) (l : List α) :
    (sortOnKey key l).length = l.length :=
  length_sortByKey _ l

theorem sortOnKey_head_le (key : α → String) {l : List α} {y : α} {ys : List α}
    (h : sortOnKey key l = y :: ys) :
    ∀ a ∈ l, strLeB (key y) (key a) = true := by
  intro a ha
  have hmem : a ∈ sortOnKey key l := (mem_sortOnKey key a l).mpr ha
  rw [h] at hmem
  rcases List.mem_cons.mp hmem with rfl | hmem
  · exact strLeB_refl _
  · have hp := pairwise_sortByKey (fun a b => strLeB (key a) (key b))
      (fun a b => strLeB_total _ _) (fun a b c => strLeB_trans) l
    rw [show sortByKey (fun a b => strLeB (key a) (key b)) l = sortOnKey key l from rfl, h] at hp
    exact (List.pairwise_cons.mp hp).1 a hmem

end FoodtrayIngest

namespace FoodtrayIngest

/-! ### Rate limiter: invariant lemmas and claims C2, C3 -/

theorem limInv_applyOp {init maxd : ℚ} (h0 : 0 ≤ init) (rl : AdaptiveRateLimiter)
    (op : LimiterOp) (h : limInv init maxd rl) : limInv init maxd (applyOp rl op) := by
  obtain ⟨h1, h2, h3, h4, h5, h6⟩ := h
  have hcur : 0 ≤ rl.current_delay := le_trans h0 h5
  have hinitmax : init ≤ maxd := le_trans h5 h6
  cases op with
  | success =>
    simp only [applyOp, AdaptiveRateLimiter.record_success]
    split
    · refine ⟨h1, h2, h3, h4, ?_, ?_⟩
      · rw [h1]
        exact le_max_left _ _
      · rw [h1, h4]
        refine max_le hinitmax ?_
        linarith
    · exact ⟨h1, h2, h3, h4, h5, h6⟩
  | error msg =>
    simp only [applyOp, AdaptiveRateLimiter.record_error]
    split
    · refine ⟨h1, h2, h3, h4, ?_, ?_⟩
      · rw [h2, h3]
        refine le_min hinitmax (le_trans ?_ (le_max_right _ _))
        linarith
      · rw [h2]
        exact min_le_left _ _
    · exact ⟨h1, h2, h3, h4, h5, h6⟩
  | reset =>
    simp only [applyOp, AdaptiveRateLimiter.resetState]
    exact ⟨h1, h2, h3, h4, le_of_eq h1.symm, h1 ▸ hinitmax⟩

theorem limInv_runOps {init maxd : ℚ} (h0 : 0 ≤ init) :
    ∀ (ops : List LimiterOp) (rl : AdaptiveRateLimiter), limInv init maxd rl →
      limInv init maxd (runOps rl ops) := by
  intro ops
  induction ops with
  | nil => intro rl h; exact h
  | cons op ops ih =>
    intro rl h
    simp only [runOps, List.foldl_cons]
    exact ih _ (limInv_applyOp h0 rl op h)

/-- C2: for every `AdaptiveRateLimiter` built with the factors of the
program's single construction site (`increase 2`, `decrease 1/2`,
`storage.py:195-201`) from a (nonnegative) `initial_delay <= max_delay`,
every sequence of `record_success`, `record_error` and `reset` calls keeps
`current_delay` inside `[initial_delay, max_delay]`. -/
theorem c2_current_delay_bounded (init maxd : ℚ) (thr : ℕ) (ops : List LimiterOp)
    (h0 : 0 ≤ init) (h1 : init ≤ maxd) :
    init ≤ (runOps (mkLimiter init maxd 2 (1/2) thr) ops).current_delay ∧
    (runOps (mkLimiter init maxd 2 (1/2) thr) ops).current_delay ≤ maxd := by
  have h := limInv_runOps h0 ops (mkLimiter init maxd 2 (1/2) thr)
    ⟨rfl, rfl, rfl, rfl, le_refl _, h1⟩
  exact ⟨h.2.2.2.2.1, h.2.2.2.2.2⟩

/-- C2 witness: the bound evaluated after a rate-limit error, a success
and a reset, starting from the production defaults (0 and 5 seconds). -/
theorem c2_current_delay_bounded_witness :
    0 ≤ (runOps (mkLimiter 0 5 2 (1/2) 10)
        [LimiterOp.error "429 Too Many Requests", LimiterOp.success, LimiterOp.reset]).current_delay ∧
    (runOps (mkLimiter 0 5 2 (1/2) 10)
        [LimiterOp.error "429 Too Many Requests", LimiterOp.success, LimiterOp.reset]).current_delay ≤ 5 :=
  c2_current_delay_bounded 0 5 10
    [LimiterOp.error "429 Too Many Requests", LimiterOp.success, LimiterOp.reset]
    (by norm_num) (by norm_num)

theorem record_success_zero_delay (rl : AdaptiveRateLimiter) (h : rl.current_delay = 0) :
    rl.record_success = { rl with success_count := rl.success_count + 1 } := by
  simp only [AdaptiveRateLimiter.record_success]
  rw [if_neg]
  rintro ⟨-, hlt⟩
  rw [h] at hlt
  exact lt_irrefl 0 hlt

theorem runOps_replicate_success_zero (n : ℕ) :
    ∀ rl : AdaptiveRateLimiter, rl.current_delay = 0 →
      (runOps rl (List.replicate n .success)).success_count = rl.success_count + n ∧
      (runOps rl (List.replicate n .success)).current_delay = 0 := by
  induction n with
  | zero => intro rl h; exact ⟨rfl, h⟩
  | succ n ih =>
    intro rl h
    have hstep : applyOp rl .success = { rl with success_count := rl.success_count + 1 } :=
      record_success_zero_delay rl h
    have hcons : runOps rl (List.replicate (n + 1) .success) =
        runOps (applyOp rl .success) (List.replicate n .success) := by
      rw [List.replicate_succ]
      rfl
    have hres := ih { rl with success_count := rl.success_count + 1 } h
    rw [hcons, hstep]
    refine ⟨?_, hres.2⟩
    rw [hres.1]
    show rl.success_count + 1 + n = rl.success_count + (n + 1)
    omega

/-- C3 counterexample: with the production default `initial_delay = 0`
(profiles "safe", "balanced" and "fast" all set `rate_delay = 0.0`), nine
successes leave the counter at 9 and the tenth `record_success` call —
the one that brings the counter to the threshold 10 — leaves it at 10
instead of resetting it to zero: the whole threshold branch is guarded by
`current_delay > 0` (`storage.py:109`). -/
theorem c3_counterexample :
    (runOps (mkLimiter 0 5 2 (1/2) 10) (List.replicate 9 .success)).success_count = 9 ∧
    (runOps (mkLimiter 0 5 2 (1/2) 10) (List.replicate 10 .success)).success_count = 10 := by
  constructor
  · have := (runOps_replicate_success_zero 9 (mkLimiter 0 5 2 (1/2) 10) rfl).1
    simpa using this
  · have := (runOps_replicate_success_zero 10 (mkLimiter 0 5 2 (1/2) 10) rfl).1
    simpa using this

/-- C3 amended: whenever a `record_success` call brings the
consecutive-success counter to the threshold (10) *and the current delay
is positive*, the delay is reduced by the decrease factor (1/2, floored at
`initial_delay`) and the counter resets to zero; with a zero delay the
branch is skipped and the counter keeps growing. -/
theorem c3_amended (rl : AdaptiveRateLimiter)
    (hthr : rl.success_threshold = 10)
    (hdec : rl.decrease_factor = 1/2)
    (hcnt : rl.success_count = 9)
    (hpos : 0 < rl.current_delay) :
    (rl.record_success).current_delay = max rl.initial_delay (rl.current_delay * (1/2)) ∧
    (rl.record_success).success_count = 0 := by
  simp only [AdaptiveRateLimiter.record_success]
  rw [if_pos ⟨by omega, hpos⟩]
  exact ⟨by rw [hdec], rfl⟩

/-- C3 amended, witness: a limiter one success short of the threshold with
delay 4 has its delay halved (to `max 0 2`) and its counter reset. -/
theorem c3_amended_witness :
    (rlNearThreshold.record_success).current_delay =
      max rlNearThreshold.initial_delay (rlNearThreshold.current_delay * (1/2)) ∧
    (rlNearThreshold.record_success).success_count = 0 :=
  c3_amended rlNearThreshold rfl rfl rfl (by norm_num [rlNearThreshold])

end FoodtrayIngest

namespace FoodtrayIngest

/-! ### Dataset scanner: claims C5 and C6 -/

/-- C5 counterexample: with two export directories, the code enumerates
the records of `export_2024_01` — `sorted(...)[0]`, the name-sorted
*first* (oldest) directory — while the spec's "single most-recent export
sub-directory (name-sorted)" is `export_2025_06`, whose records differ. -/
theorem c5_counterexample :
    scan_recognitions rootTwoExports none = Except.ok ["recognition_2"] ∧
    specScanMostRecent rootTwoExports none = Except.ok ["recognition_9"] ∧
    (["recognition_2"] : List String) ≠ ["recognition_9"] := by
  refine ⟨rfl, rfl, ?_⟩
  decide

/-- C5 amended: for every dataset root with at least one export
sub-directory, the scanner enumerates (name-sorted) record
sub-directories beneath the single name-sorted *first* — i.e. oldest, not
most recent — export sub-directory, truncated to the caller-supplied
limit when that limit is non-zero. -/
theorem c5_amended (root : DatasetRoot) (limit : Option Nat) (e : SubDir) (es : List SubDir)
    (h : exportDirsOf root = e :: es) :
    e ∈ root.subdirs ∧
    strStartsWithB e.name "export_" = true ∧
    (∀ d ∈ root.subdirs, strStartsWithB d.name "export_" = true →
      strLeB e.name d.name = true) ∧
    scan_recognitions root limit =
      Except.ok (applyLimit limit
        (sortOnKey id (e.childDirNames.filter (fun n => strStartsWithB n "recognition_")))) := by
  have hmem : e ∈ root.subdirs.filter (fun d => strStartsWithB d.name "export_") := by
    have : e ∈ exportDirsOf root := by
      rw [h]
      exact List.mem_cons_self e es
    exact (mem_sortOnKey SubDir.name e _).mp this
  have hfe := List.mem_filter.mp hmem
  refine ⟨hfe.1, hfe.2, ?_, ?_⟩
  · intro d hd hpre
    have hdf : d ∈ root.subdirs.filter (fun dd => strStartsWithB dd.name "export_") :=
      List.mem_filter.mpr ⟨hd, hpre⟩
    exact sortOnKey_head_le SubDir.name h d hdf
  · simp only [scan_recognitions, h]

/-- C5 amended, witness: on the two-export root the chosen directory is
the older `export_2024_01` and it is name-minimal among the exports. -/
theorem c5_amended_witness :
    expOld ∈ rootTwoExports.subdirs ∧
    strStartsWithB expOld.name "export_" = true ∧
    (∀ d ∈ rootTwoExports.subdirs, strStartsWithB d.name "export_" = true →
      strLeB expOld.name d.name = true) ∧
    scan_recognitions rootTwoExports none =
      Except.ok (applyLimit none
        (sortOnKey id (expOld.childDirNames.filter (fun n => strStartsWithB n "recognition_")))) :=
  c5_amended rootTwoExports none expOld [expNew] (by decide)

/-- C6 counterexample: a dataset root with no export directory does not
make scanning fail — with a root-level `recognition_7` directory the
fallback branch returns it, and with no record directories at all the
scanner returns an empty list; no `NotFoundError` is raised on either
input (the body of `scan_recognitions` has no raise at all). -/
theorem c6_counterexample :
    scan_recognitions rootNoExport none = Except.ok ["recognition_7"] ∧
    scan_recognitions rootEmptyDir none = Except.ok [] := by
  exact ⟨rfl, rfl⟩

/-- C6 amended: `scan_recognitions` never fails — with no export
directory it falls back to root-level digit-named or `recognition_*`
directories and yields `[]` when none exist; the only `NotFoundError` in
the scanner is `find_dataset`'s `FileNotFoundError`, raised exactly when
no configured search path exists. -/
theorem c6_amended :
    (∀ (root : DatasetRoot) (limit : Option Nat),
      ∃ l, scan_recognitions root limit = Except.ok l) ∧
    (∀ ps : List (String × Bool),
      (find_dataset ps = Except.error "FileNotFoundError" ↔ ∀ p ∈ ps, p.2 = false)) := by
  constructor
  · intro root limit
    exact ⟨_, rfl⟩
  · intro ps
    have hiff : find_dataset ps = Except.error "FileNotFoundError" ↔
        ps.find? (fun p => p.2) = none := by
      unfold find_dataset
      cases hf : ps.find? (fun p => p.2) <;> simp
    rw [hiff, List.find?_eq_none]
    simp

/-- C6 amended, witness: on a search-path list where nothing exists,
`find_dataset` raises `FileNotFoundError`. -/
theorem c6_amended_witness :
    find_dataset pathsNone = Except.error "FileNotFoundError" :=
  (c6_amended.2 pathsNone).mpr (by decide)

end FoodtrayIngest

namespace FoodtrayIngest

/-! ### Record processor: claims C4 and C7 -/

theorem process_images_length {d : RecordDir} {l : List ProcessedImage}
    (h : process_images d = some l) : l.length = 2 := by
  simp only [process_images] at h
  split at h
  · exact absurd h (by simp)
  · split at h
    · exact absurd h (by simp)
    · rename_i results heq
      split at h
      · rename_i hlen
        rw [Option.some_inj.mp h] at hlen
        exact hlen
      · exact absurd h (by simp)

theorem processImagesGo_some :
    ∀ (idx : Nat) (fs : List ImageFile), (∀ f ∈ fs, f.decodeOk = true) →
      ∃ l, processImagesGo idx fs = some l ∧ l.length = fs.length := by
  intro idx fs
  induction fs generalizing idx with
  | nil => intro _; exact ⟨[], rfl, rfl⟩
  | cons f fs ih =>
    intro h
    obtain ⟨l, hl, hlen⟩ := ih (idx + 1) (fun g hg => h g (List.mem_cons_of_mem f hg))
    refine ⟨{ filename := "camera" ++ toString idx ++ ".jpg", width := f.width,
              height := f.height, data := f.reencoded } :: l, ?_, ?_⟩
    · simp only [processImagesGo, h f (List.mem_cons_self f fs), if_true, hl]
    · simp [hlen]

theorem process_images_some_of_valid {d : RecordDir}
    (hlen : (imageCandidates d).length = 2)
    (hdec : ∀ f ∈ imageCandidates d, f.decodeOk = true) :
    ∃ l, process_images d = some l ∧ l.length = 2 := by
  have hslen : (sortOnKey ImageFile.name (imageCandidates d)).length = 2 := by
    rw [length_sortOnKey, hlen]
  have hsdec : ∀ f ∈ sortOnKey ImageFile.name (imageCandidates d), f.decodeOk = true :=
    fun f hf => hdec f ((mem_sortOnKey ImageFile.name f _).mp hf)
  obtain ⟨l, hgo, hllen⟩ := processImagesGo_some 1 _ hsdec
  rw [hslen] at hllen
  refine ⟨l, ?_, hllen⟩
  simp only [process_images]
  rw [if_neg (by omega), hgo]
  simp [hllen]

/-- C4 counterexample: a record directory with two good images, a
parseable name and *no* metadata file at all is not skipped — the record
is produced, with `active_menu = none` as well as `recipe_payload = none`;
the claim says a missing active-menu file skips the record. -/
theorem c4_counterexample :
    exDirC4.amPayloads = [] ∧
    (process_recognition "batch_1" exDirC4).map RecognitionData.active_menu = some none ∧
    (process_recognition "batch_1" exDirC4).map RecognitionData.recipe_payload = some none := by
  refine ⟨rfl, ?_, ?_⟩ <;> rfl

/-- C4 amended: a missing recipe file yields a `RecognitionData` with
`recipe_payload = none`, and a missing active-menu file likewise yields
`active_menu = none` — the record is still produced whenever its name
parses and its images process; records are skipped only for an
unparseable name, an unreadable metadata file, or an image-step failure. -/
theorem c4_amended (b : String) (d : RecordDir)
    (ham : d.amPayloads = []) (hcd : d.cdPayloads = [])
    (hid : (extract_recognition_id d.name).isSome = true)
    (himg : (process_images d).isSome = true) :
    ∃ r, process_recognition b d = some r ∧
      r.active_menu = none ∧ r.recipe_payload = none := by
  obtain ⟨rid, hrid⟩ := Option.isSome_iff_exists.mp hid
  obtain ⟨l, hl⟩ := Option.isSome_iff_exists.mp himg
  have hlen := process_images_length hl
  obtain ⟨i1, i2, rfl⟩ : ∃ i1 i2, l = [i1, i2] := by
    match l, hlen with
    | [i1, i2], _ => exact ⟨i1, i2, rfl⟩
  refine ⟨{ recognition_id := rid, batch_id := b, active_menu := none,
            image1_path := i1.filename, image2_path := i2.filename,
            image1_width := i1.width, image1_height := i1.height,
            image2_width := i2.width, image2_height := i2.height,
            image1_data := i1.data, image2_data := i2.data,
            recipe_payload := none }, ?_, rfl, rfl⟩
  simp only [process_recognition, hrid, load_active_menu, load_recipe, loadJsonHead,
    ham, hcd, List.head?_nil, hl]

/-- C4 amended, witness: the metadata-free directory with two good images
produces a record with both payloads `none`. -/
theorem c4_amended_witness :
    ∃ r, process_recognition "batch_1" exDirC4 = some r ∧
      r.active_menu = none ∧ r.recipe_payload = none :=
  c4_amended "batch_1" exDirC4 rfl rfl (by decide) (by decide)

theorem loadJsonHead_ok_of_not_malformed {ps : List (Option String)}
    (h : ¬ps.head? = some none) : ∃ v, loadJsonHead ps = Except.ok v := by
  unfold loadJsonHead
  cases hh : ps.head? with
  | none => exact ⟨none, rfl⟩
  | some o =>
    cases o with
    | none => exact absurd hh h
    | some p => exact ⟨some p, rfl⟩

theorem process_recognition_isSome_of_valid (b : String) (d : RecordDir)
    (h : validRecordDir d = true) : (process_recognition b d).isSome = true := by
  simp only [validRecordDir, Bool.and_eq_true, beq_iff_eq, Bool.not_eq_true',
    beq_eq_false_iff_ne, ne_eq, List.all_eq_true] at h
  obtain ⟨⟨⟨⟨hid, ham⟩, hcd⟩, hlen⟩, hdec⟩ := h
  obtain ⟨rid, hrid⟩ := Option.isSome_iff_exists.mp hid
  obtain ⟨am, hamok⟩ := loadJsonHead_ok_of_not_malformed ham
  obtain ⟨rc, hcdok⟩ := loadJsonHead_ok_of_not_malformed hcd
  obtain ⟨l, hl, hllen⟩ := process_images_some_of_valid hlen hdec
  obtain ⟨i1, i2, rfl⟩ : ∃ i1 i2, l = [i1, i2] := by
    match l, hllen with
    | [i1, i2], _ => exact ⟨i1, i2, rfl⟩
  simp only [process_recognition, hrid, load_active_menu, load_recipe, hamok, hcdok, hl,
    Option.isSome_some]

theorem validRecordDir_eq_false_of_wrong {d : RecordDir}
    (h : wrongImageCount d = true) : validRecordDir d = false := by
  simp only [wrongImageCount, bne_iff_ne, ne_eq] at h
  cases hval : validRecordDir d with
  | false => rfl
  | true =>
    exfalso
    simp only [validRecordDir, Bool.and_eq_true, beq_iff_eq] at hval
    exact h hval.1.2

theorem process_recognition_none_of_wrong (b : String) (d : RecordDir)
    (h : wrongImageCount d = true) : process_recognition b d = none := by
  have hcount : (imageCandidates d).length ≠ 2 := by
    simpa only [wrongImageCount, bne_iff_ne, ne_eq] using h
  have himg : process_images d = none := by
    simp only [process_images]
    rw [if_pos hcount]
  unfold process_recognition
  cases hid : extract_recognition_id d.name with
  | none => rfl
  | some rid =>
    cases ham : load_active_menu d with
    | error e => rfl
    | ok am =>
      cases hcd : load_recipe d with
      | error e => rfl
      | ok rc =>
        rw [himg]

/-- C7: on a dataset whose every record directory is either fully valid or
has a wrong image count, processing yields exactly one `RecognitionData`
per valid directory and one skip per wrong-count directory — no
wrong-count directory aborts the run (`process_dataset` is total and the
counts always add up). -/
theorem process_dataset_cons_some {b : String} {d : RecordDir} {r : RecognitionData}
    {ds : List RecordDir} (h : process_recognition b d = some r) :
    process_dataset b (d :: ds) = r :: process_dataset b ds := by
  simp [process_dataset, List.filterMap_cons, h]

theorem process_dataset_cons_none {b : String} {d : RecordDir}
    {ds : List RecordDir} (h : process_recognition b d = none) :
    process_dataset b (d :: ds) = process_dataset b ds := by
  simp [process_dataset, List.filterMap_cons, h]

theorem c7_partial_record_tolerance (b : String) (dirs : List RecordDir)
    (h : ∀ d ∈ dirs, validRecordDir d = true ∨ wrongImageCount d = true) :
    (process_dataset b dirs).length = dirs.countP validRecordDir ∧
    dirs.length - (process_dataset b dirs).length = dirs.countP wrongImageCount := by
  induction dirs with
  | nil => exact ⟨rfl, rfl⟩
  | cons d ds ih =>
    obtain ⟨ihl, ihs⟩ := ih (fun x hx => h x (List.mem_cons_of_mem d hx))
    have hle : (process_dataset b ds).length ≤ ds.length :=
      List.length_filterMap_le _ _
    rcases h d (List.mem_cons_self d ds) with hv | hw
    · have hsome := process_recognition_isSome_of_valid b d hv
      obtain ⟨r, hr⟩ := Option.isSome_iff_exists.mp hsome
      have hnw : ¬wrongImageCount d = true := by
        intro hw
        rw [validRecordDir_eq_false_of_wrong hw] at hv
        exact absurd hv (by simp)
      rw [process_dataset_cons_some hr, List.countP_cons_of_pos validRecordDir ds hv,
        List.countP_cons_of_neg wrongImageCount ds hnw, List.length_cons, List.length_cons]
      exact ⟨by omega, by omega⟩
    · have hnone := process_recognition_none_of_wrong b d hw
      have hnv : ¬validRecordDir d = true := by
        rw [validRecordDir_eq_false_of_wrong hw]
        simp
      rw [process_dataset_cons_none hnone, List.countP_cons_of_neg validRecordDir ds hnv,
        List.countP_cons_of_pos wrongImageCount ds hw, List.length_cons]
      exact ⟨ihl, by omega⟩

/-- C7 witness: the three-directory dataset (two valid, one wrong-count)
yields exactly its valid count of records and its wrong count of skips. -/
theorem c7_partial_record_tolerance_witness :
    (process_dataset "batch_1" dirsC7).length = dirsC7.countP validRecordDir ∧
    dirsC7.length - (process_dataset "batch_1" dirsC7).length = dirsC7.countP wrongImageCount :=
  c7_partial_record_tolerance "batch_1" dirsC7 (by decide)

end FoodtrayIngest

namespace FoodtrayIngest

/-! ### Connection pool: claim C8 -/

theorem get_connection_pool (c : ConnCall) (p : PoolState) :
    (get_connection c p).pool = p := by
  obtain ⟨a, co⟩ := p
  by_cases ha : a = 0
  · simp [get_connection, ha]
  · cases hf : c.fnOk <;> cases hc : c.commitOk <;>
      simp [get_connection, ha, hf, hc] <;> omega

theorem runConnCalls_pool (calls : List ConnCall) : ∀ p, runConnCalls calls p = p := by
  induction calls with
  | nil => intro p; rfl
  | cons c cs ih =>
    intro p
    have hstep : runConnCalls (c :: cs) p = runConnCalls cs (get_connection c p).pool := rfl
    rw [hstep, get_connection_pool, ih]

/-- C8: `get_connection` disables autocommit on the checked-out
connection, commits exactly when the body returns normally (and the
commit itself succeeds), rolls back on every failing path, and returns
the connection to the pool on every exit path — so any sequence of
successful and failing calls leaves zero connections checked out. -/
theorem c8_pool_hygiene :
    (∀ (c : ConnCall) (p : PoolState),
      (get_connection c p).pool = p ∧
      (get_connection c p).autocommitOff = (p.available != 0) ∧
      (get_connection c p).committed = ((p.available != 0) && c.fnOk && c.commitOk) ∧
      (get_connection c p).rolledBack = ((p.available != 0) && (!c.fnOk || !c.commitOk)) ∧
      (get_connection c p).raised = (!(p.available != 0) || !c.fnOk || !c.commitOk)) ∧
    (∀ (calls : List ConnCall) (idle : Nat),
      (runConnCalls calls { available := idle, checkedOut := 0 }).checkedOut = 0) := by
  constructor
  · intro c p
    refine ⟨get_connection_pool c p, ?_⟩
    by_cases ha : p.available = 0 <;> cases hf : c.fnOk <;> cases hc : c.commitOk <;>
      simp [get_connection, ha, hf, hc]
  · intro calls idle
    rw [runConnCalls_pool]

end FoodtrayIngest

namespace FoodtrayIngest

/-! ### Transaction coordinator: claims C9, C10, C1 -/

theorem commitTempGo_ok_of_all (moveOk : String → Bool) :
    ∀ (ts : List String) (st : StorageState), (∀ t ∈ ts, moveOk t = true) →
      ∃ st', commitTempGo moveOk ts st = (st', Except.ok ()) := by
  intro ts
  induction ts with
  | nil => intro st _; exact ⟨_, rfl⟩
  | cons t ts ih =>
    intro st h
    have ht := h t (List.mem_cons_self t ts)
    simp only [commitTempGo, ht, if_true]
    exact ih _ (fun x hx => h x (List.mem_cons_of_mem t hx))

/-- C9: every exception inside `commit()` — a failed database commit, a
failed promotion of a temp-staged blob, or a failed transform — makes
`commit()` invoke `rollback()` and re-raise (the result is an error
exactly when `rollback()` ran), and when all three steps succeed nothing
is rolled back and no exception escapes. -/
theorem c9_commit_exception_rolls_back (dbCommitOk transformOk : Bool)
    (moveOk : String → Bool) (tx : TxState) :
    (raisedE (txCommit dbCommitOk moveOk transformOk tx).result =
      (txCommit dbCommitOk moveOk transformOk tx).rolledBack) ∧
    (dbCommitOk = true → transformOk = true →
      (∀ t ∈ tx.storage.tempFiles, moveOk t = true) →
      (txCommit dbCommitOk moveOk transformOk tx).result = Except.ok () ∧
      (txCommit dbCommitOk moveOk transformOk tx).rolledBack = false) := by
  obtain ⟨⟨objs, upf, tmpf⟩, db, staged⟩ := tx
  constructor
  · cases dbCommitOk with
    | false => rfl
    | true =>
      cases tmpf with
      | nil => cases transformOk <;> rfl
      | cons t ts =>
        rcases hc : commitTempGo moveOk (t :: ts)
            ({ objects := objs, uploadedFiles := upf, tempFiles := t :: ts } : StorageState)
          with ⟨st, r⟩
        cases r with
        | error e => simp [txCommit, commit_temp_files, hc, run_transforms, raisedE]
        | ok u =>
          cases transformOk <;> simp [txCommit, commit_temp_files, hc, run_transforms, raisedE]
  · intro hdb htr hmv
    subst hdb htr
    cases tmpf with
    | nil => exact ⟨rfl, rfl⟩
    | cons t ts =>
      obtain ⟨st', hst'⟩ := commitTempGo_ok_of_all moveOk (t :: ts)
        ({ objects := objs, uploadedFiles := upf, tempFiles := t :: ts } : StorageState) hmv
      constructor <;> simp [txCommit, commit_temp_files, hst', run_transforms]

/-- C9 witness: with a clean database commit, an all-successful promotion
environment and a clean transform on an empty transaction, `commit()`
succeeds without invoking `rollback()`. -/
theorem c9_commit_exception_rolls_back_witness :
    (txCommit true (fun _ => true) true txEmpty).result = Except.ok () ∧
    (txCommit true (fun _ => true) true txEmpty).rolledBack = false :=
  (c9_commit_exception_rolls_back true true (fun _ => true) txEmpty).2 rfl rfl
    (by intro t ht; exact absurd ht (by simp [txEmpty]))

theorem mem_upsertPath {p : String} (x : String) {objs : List String} (h : p ∈ objs) :
    p ∈ upsertPath x objs := by
  unfold upsertPath
  split
  · exact h
  · exact List.mem_append_left _ h

theorem mem_removePaths {p : String} {ps objs : List String} (h : p ∈ objs) (hn : p ∉ ps) :
    p ∈ removePaths ps objs := by
  unfold removePaths
  refine List.mem_filter.mpr ⟨h, ?_⟩
  simp [hn]

theorem commitTempGo_keeps_foreign (moveOk : String → Bool) (p : String) :
    ∀ (ts : List String) (st : StorageState), p ∉ ts → p ∈ st.objects →
      p ∈ (commitTempGo moveOk ts st).1.objects := by
  intro ts
  induction ts with
  | nil => intro st _ h; exact h
  | cons t ts ih =>
    intro st hn h
    have hpt : p ≠ t := fun he => hn (he ▸ List.mem_cons_self t ts)
    by_cases hm : moveOk t = true
    · simp only [commitTempGo, hm, if_true]
      refine ih _ (fun hx => hn (List.mem_cons_of_mem t hx)) ?_
      exact mem_upsertPath _ (mem_removePaths h (by simp [hpt]))
    · simp only [commitTempGo, hm, if_false]
      exact h

/-- C10: an `upload_file(path, data, use_temp=True)` call that succeeds
through the "Duplicate"/"already exists" branch records the *temp* path
in the permanent `_uploaded_files` list instead of `_temp_files`; the
blob sitting at that temp path is therefore untouched by a later
`commit_temp_files` (never promoted) and by `rollback_temp_files` (never
deleted). -/
theorem c10_duplicate_temp_upload_bookkeeping (env : String → UploadOutcome)
    (moveOk : String → Bool) (st : StorageState) (path : String)
    (hdup : env (tempPrefixVal ++ "/" ++ path) = .dup)
    (hnt : (tempPrefixVal ++ "/" ++ path) ∉ st.tempFiles)
    (hobj : (tempPrefixVal ++ "/" ++ path) ∈ st.objects) :
    (upload_file env true path st).2 = Except.ok () ∧
    (tempPrefixVal ++ "/" ++ path) ∈ (upload_file env true path st).1.uploadedFiles ∧
    (tempPrefixVal ++ "/" ++ path) ∉ (upload_file env true path st).1.tempFiles ∧
    (tempPrefixVal ++ "/" ++ path) ∈
      (commit_temp_files moveOk (upload_file env true path st).1).1.objects ∧
    (tempPrefixVal ++ "/" ++ path) ∈
      (rollback_temp_files (upload_file env true path st).1).objects := by
  have hu : upload_file env true path st =
      ({ st with uploadedFiles := st.uploadedFiles ++ [tempPrefixVal ++ "/" ++ path] },
        Except.ok ()) := by
    simp only [upload_file, if_true, hdup]
  rw [hu]
  refine ⟨rfl, List.mem_append_right _ (List.mem_singleton.mpr rfl), hnt, ?_, ?_⟩
  · exact commitTempGo_keeps_foreign moveOk _ st.tempFiles _ hnt hobj
  · unfold rollback_temp_files
    split
    · exact hobj
    · exact mem_removePaths hobj hnt

/-- C10 witness: a temp-mode upload over an already-present temp blob
(duplicate response) leaves the blob in place through both
`commit_temp_files` and `rollback_temp_files`. -/
theorem c10_duplicate_temp_upload_bookkeeping_witness :
    (upload_file envDup true pathDup stDup).2 = Except.ok () ∧
    (tempPrefixVal ++ "/" ++ pathDup) ∈ (upload_file envDup true pathDup stDup).1.uploadedFiles ∧
    (tempPrefixVal ++ "/" ++ pathDup) ∉ (upload_file envDup true pathDup stDup).1.tempFiles ∧
    (tempPrefixVal ++ "/" ++ pathDup) ∈
      (commit_temp_files (fun _ => true) (upload_file envDup true pathDup stDup).1).1.objects ∧
    (tempPrefixVal ++ "/" ++ pathDup) ∈
      (rollback_temp_files (upload_file envDup true pathDup stDup).1).objects :=
  c10_duplicate_temp_upload_bookkeeping envDup (fun _ => true) stDup pathDup rfl
    (by decide) (by decide)

/-- C1 (code bug): in direct (non-temp) mode, when the second of the two
uploads of the batch fails permanently, `stage_recognitions` raises (as
claimed) with no row staged or committed — but the subsequent `rollback()`
deletes nothing from storage: `_staged_recognitions` is still empty
because `stage_recognitions` extends it only after staging succeeds, so
the permanent-blob cleanup loop sees no records, and the blob uploaded
before the failure (`recognitions/1/camera1.jpg`, duly tracked in
`_uploaded_files`) survives in the bucket, contrary to the claim and to
spec section 8. -/
theorem c1_stage_failure_leaves_permanent_blob :
    raisedE (stage_recognitions envC1 [recC1] false txEmpty).2 = true ∧
    (stage_recognitions envC1 [recC1] false txEmpty).1.staged = [] ∧
    (stage_recognitions envC1 [recC1] false txEmpty).1.db.pending = [] ∧
    (stage_recognitions envC1 [recC1] false txEmpty).1.db.committed = [] ∧
    "recognitions/1/camera1.jpg" ∈ (stage_recognitions envC1 [recC1] false txEmpty).1.storage.objects ∧
    "recognitions/1/camera1.jpg" ∈ (stage_recognitions envC1 [recC1] false txEmpty).1.storage.uploadedFiles ∧
    (txRollback (stage_recognitions envC1 [recC1] false txEmpty).1).db.committed = [] ∧
    (txRollback (stage_recognitions envC1 [recC1] false txEmpty).1).db.pending = [] ∧
    "recognitions/1/camera1.jpg" ∈
      (txRollback (stage_recognitions envC1 [recC1] false txEmpty).1).storage.objects := by
  decide

end FoodtrayIngest

namespace FoodtrayIngest

/-- C8 witness: three calls (clean, failing body, failing commit) against
a two-connection pool leave zero connections checked out. -/
theorem c8_pool_hygiene_witness :
    (runConnCalls [⟨true, true⟩, ⟨false, true⟩, ⟨true, false⟩]
      { available := 2, checkedOut := 0 }).checkedOut = 0 :=
  c8_pool_hygiene.2 [⟨true, true⟩, ⟨false, true⟩, ⟨true, false⟩] 2

end FoodtrayIngest
